import Mathlib

/-!
Shallow embedding of the ClipStream video-sharing backend
(src/app/main.py, src/app/models.py, src/app/database.py, src/app/schemas.py).

The database state is a record of lists mirroring the tables declared in
src/app/models.py.  Handlers from src/app/main.py become functions from a
state to `Except Err (state × output)`: an `ok` result is the state after the
handler's `db.commit()`, an `error` result is an HTTPException or an integrity
error raised before a successful commit (in which case the session's
transaction is rolled back, so no state is returned).

Modelling choices, each noted at the definition it concerns:
* surrogate ids of `VideoLike` and `Subscription` rows and their
  `created_at` columns are omitted: no endpoint reads them, every query on
  those tables filters or counts by the (user, video) / (subscriber, channel)
  pair, so a row is embedded as that pair;
* wall-clock reads (`datetime.utcnow`) come from a `now` field of the state;
* the uuid4 prefix of an uploaded filename is modelled by the fresh video id;
* `src/app/security.py` is imported by main.py but is not one of the
  repository's files; its three functions are modelled from the spec where
  needed and marked so.
-/

namespace ClipStream

/-- A row of `users` (src/app/models.py, class User). -/
structure User where
  id : Nat
  username : String
  password_hash : String
  created_at : Nat
deriving DecidableEq, Repr

/-- A row of `genres` (src/app/models.py, class Genre). -/
structure Genre where
  id : Nat
  name : String
deriving DecidableEq, Repr

/-- A row of `videos` (src/app/models.py, class Video). -/
structure Video where
  id : Nat
  title : String
  description : Option String
  filename : String
  created_at : Nat
  owner_id : Nat
deriving DecidableEq, Repr

/-- The database state: one list per table of src/app/models.py.
`video_genre` is the association table (rows `(video_id, genre_id)`, composite
primary key), `video_likes` rows are `(user_id, video_id)` pairs and
`subscriptions` rows are `(subscriber_id, channel_id)` pairs (surrogate id and
timestamp omitted, see the file comment).  `now` models the wall clock. -/
structure DB where
  users : List User
  genres : List Genre
  videos : List Video
  video_genre : List (Nat × Nat)
  video_likes : List (Nat × Nat)
  subscriptions : List (Nat × Nat)
  now : Nat
deriving DecidableEq, Repr

/-- The error outcomes of a request: the HTTPException status codes raised in
src/app/main.py plus the integrity error a violated unique constraint raises
at commit time (spec section 7). -/
inductive Err where
  | badRequest
  | unauthorized
  | notFound
  | integrityError
deriving DecidableEq, Repr

/-- Schema `VideoOut` (src/app/schemas.py lines 60-71): the serialized video.
The nested `owner : UserOut` is embedded by the owner's id and the nested
`genres : List GenreOut` by the linked genre ids. -/
structure VideoOut where
  id : Nat
  title : String
  description : Option String
  filename : String
  created_at : Nat
  owner_id : Nat
  genres : List Nat
  likes : Nat
deriving DecidableEq, Repr

/-- Schema `RecommendationOut` (src/app/schemas.py lines 86-88). -/
structure RecommendationOut where
  video : VideoOut
  score : Nat
deriving DecidableEq, Repr

/-- A fresh autoincrement primary key: one more than the largest id in use. -/
def freshId (ids : List Nat) : Nat := ids.foldr max 0 + 1

/-- Python's `str.split(sep)` on a character list: splitting the empty string
yields one empty field, a separator opens a new field. -/
def split_on_char (sep : Char) : List Char → List (List Char)
  | [] => [[]]
  | c :: rest =>
    match split_on_char sep rest with
    | [] => [[c]]
    | field :: fields =>
      if c = sep then [] :: field :: fields else (c :: field) :: fields

/-- Python's `str.strip()` on a character list: drop whitespace at both
ends.  (Lean's `String.trim` works on byte positions, which the kernel does
not evaluate; this structural version is used instead.) -/
def py_strip (l : List Char) : List Char :=
  ((l.dropWhile Char.isWhitespace).reverse.dropWhile Char.isWhitespace).reverse

/-- Python's `str.lower()` / SQL `func.lower`, characterwise on the string's
characters. -/
def str_lower (s : String) : String := String.mk (s.data.map Char.toLower)

/-- Decidable equality for `Except`, so that witnesses can compare request
outcomes by evaluation. -/
instance {ε α : Type} [DecidableEq ε] [DecidableEq α] : DecidableEq (Except ε α) :=
  fun x y =>
    match x, y with
    | .error e, .error f =>
      if h : e = f then isTrue (by rw [h]) else isFalse (fun hh => h (by injection hh))
    | .ok a, .ok b =>
      if h : a = b then isTrue (by rw [h]) else isFalse (fun hh => h (by injection hh))
    | .error _, .ok _ => isFalse (fun hh => Except.noConfusion hh)
    | .ok _, .error _ => isFalse (fun hh => Except.noConfusion hh)

/-- Modelled from the spec: `get_password_hash` lives in src/app/security.py,
which main.py imports but which is not among the repository's files.  Spec
section 4.1 says only that the stored value is a hash of the password, never
the plaintext; the hash function itself is out of the spec's scope. -/
def get_password_hash (password : String) : String := "pbkdf2$" ++ password

/-- Modelled from the spec: `create_access_token` (src/app/security.py, not
among the repository's files).  Spec section 4.1: login issues a signed
bearer token carrying the username as subject claim.  A valid token is
modelled as the subject behind a fixed scheme tag. -/
def create_access_token (sub : String) : String := "Bearer " ++ sub

/-- Modelled from the spec: `decode_token` (src/app/security.py, not among
the repository's files).  Spec section 4.1: resolving a missing or invalid
token fails; a valid token yields its subject claim. -/
def decode_token (token : String) : Option String :=
  if ("Bearer ".data).isPrefixOf token.data then some (String.mk (token.data.drop 7))
  else none

/-- `get_current_user` (src/app/main.py lines 38-48): decode the bearer
token, read its subject and look the user up by username; any failure is an
unauthorized error. -/
def get_current_user (s : DB) (token : String) : Except Err User :=
  match decode_token token with
  | none => .error .unauthorized
  | some username =>
    match s.users.find? (fun u => decide (u.username = username)) with
    | none => .error .unauthorized
    | some u => .ok u

/-- `register` (src/app/main.py lines 51-63): reject a taken username with
bad-request, otherwise insert the user with the hashed password and commit. -/
def register (s : DB) (username password : String) : Except Err (DB × User) :=
  if s.users.any (fun u => decide (u.username = username)) then
    .error .badRequest
  else
    let u : User :=
      { id := freshId (s.users.map (fun u => u.id)),
        username := username,
        password_hash := get_password_hash password,
        created_at := s.now }
    .ok ({ s with users := s.users ++ [u] }, u)

/-- The genre ids linked to a video through the `video_genre` association
table, in row order (the `video.genres` relationship of src/app/models.py). -/
def video_genre_ids (s : DB) (video_id : Nat) : List Nat :=
  (s.video_genre.filter (fun p => decide (p.1 = video_id))).map (fun p => p.2)

/-- `serialize_video` (src/app/main.py lines 234-246): the like count is the
number of `VideoLike` rows whose `video_id` references the video, computed
from the state at response time; every other field is copied off the row. -/
def serialize_video (s : DB) (v : Video) : VideoOut :=
  { id := v.id,
    title := v.title,
    description := v.description,
    filename := v.filename,
    created_at := v.created_at,
    owner_id := v.owner_id,
    genres := video_genre_ids s v.id,
    likes := s.video_likes.countP (fun l => decide (l.2 = v.id)) }

/-- The genre-names list comprehension of src/app/main.py line 96: split on
commas, trim, drop empties. -/
def parse_genre_names (genres : String) : List String :=
  ((split_on_char ',' genres.data).map (fun g => String.mk (py_strip g))).filter
    (fun g => decide (g ≠ ""))

/-- The genre loop of src/app/main.py lines 97-103 over the parsed names:
look each name up case-insensitively in the current `genres` table, create
and flush a new row (bearing the incoming casing) when absent, and append the
found-or-created genre's id to the video's link list.  Returns the genres
table after the loop and the link ids in append order — one per name, so a
name repeated up to case links the same id repeatedly. -/
def process_genres : List Genre → List String → List Genre × List Nat
  | gs, [] => (gs, [])
  | gs, name :: rest =>
    match gs.find? (fun g => decide (str_lower g.name = str_lower name)) with
    | some g =>
      let out := process_genres gs rest
      (out.1, g.id :: out.2)
    | none =>
      let g : Genre := { id := freshId (gs.map (fun g => g.id)), name := name }
      let out := process_genres (gs ++ [g]) rest
      (out.1, g.id :: out.2)

/-- `upload_video` (src/app/main.py lines 80-108): create the video row for
the caller, run the genre loop, and commit.  The commit inserts one
`video_genre` row per appended link; the table's composite primary key
(src/app/models.py lines 19-24) rejects a duplicate `(video_id, genre_id)`
pair, which surfaces as an integrity error and aborts the transaction. -/
def upload_video (s : DB) (uid : Nat) (title : String)
    (description : Option String) (genres : String) (orig_filename : String) :
    Except Err (DB × VideoOut) :=
  let vid := freshId (s.videos.map (fun v => v.id))
  let v : Video :=
    { id := vid, title := title, description := description,
      filename := toString vid ++ "_" ++ orig_filename,
      created_at := s.now, owner_id := uid }
  let out := process_genres s.genres (parse_genre_names genres)
  let rows := s.video_genre ++ out.2.map (fun g => (vid, g))
  if rows.Nodup then
    let s' := { s with videos := s.videos ++ [v], genres := out.1, video_genre := rows }
    .ok (s', serialize_video s' v)
  else
    .error .integrityError

/-- The `created_at desc` ordering used by `list_videos`. -/
def created_desc (a b : Video) : Prop := b.created_at ≤ a.created_at

instance : DecidableRel created_desc :=
  fun a b => inferInstanceAs (Decidable (b.created_at ≤ a.created_at))

/-- `list_videos` (src/app/main.py lines 111-114): newest first, then
skip/limit pagination, each row serialized. -/
def list_videos (s : DB) (skip limit : Nat) : List VideoOut :=
  (((s.videos.insertionSort created_desc).drop skip).take limit).map (serialize_video s)

/-- `get_video` (src/app/main.py lines 117-122): by id, not-found if absent. -/
def get_video (s : DB) (video_id : Nat) : Except Err VideoOut :=
  match s.videos.find? (fun v => decide (v.id = video_id)) with
  | none => .error .notFound
  | some v => .ok (serialize_video s v)

/-- Deletion of the first row equal to `p`, as `.first()` followed by
`db.delete` does in the like and subscription toggles. -/
def delete_first (p : Nat × Nat) : List (Nat × Nat) → List (Nat × Nat)
  | [] => []
  | q :: rest => if q = p then rest else q :: delete_first p rest

/-- `like_video` (src/app/main.py lines 142-164): not-found when the video
does not exist; otherwise delete the existing `(user, video)` like row
(first match, as `.first()` then `db.delete`) or insert one, and report which
happened. -/
def like_video (s : DB) (uid video_id : Nat) : Except Err (DB × String) :=
  match s.videos.find? (fun v => decide (v.id = video_id)) with
  | none => .error .notFound
  | some v =>
    if (uid, v.id) ∈ s.video_likes then
      .ok ({ s with video_likes := delete_first (uid, v.id) s.video_likes }, "Like removed")
    else
      .ok ({ s with video_likes := s.video_likes ++ [(uid, v.id)] }, "Video liked")

/-- `subscribe_user` (src/app/main.py lines 167-194): self-subscription is
rejected with bad-request before anything else, a missing channel is
not-found, otherwise the `(subscriber, channel)` row is toggled. -/
def subscribe_user (s : DB) (uid target : Nat) : Except Err (DB × String) :=
  if uid = target then
    .error .badRequest
  else
    match s.users.find? (fun u => decide (u.id = target)) with
    | none => .error .notFound
    | some ch =>
      if (uid, ch.id) ∈ s.subscriptions then
        .ok ({ s with subscriptions := delete_first (uid, ch.id) s.subscriptions }, "Unsubscribed")
      else
        .ok ({ s with subscriptions := s.subscriptions ++ [(uid, ch.id)] }, "Subscribed")

/-- The subscribe endpoint as dispatched: the `get_current_user` dependency
resolves the token before the handler body runs (src/app/main.py lines
167-172), so an authentication failure is returned without reaching the
handler. -/
def subscribe_request (s : DB) (token : String) (target : Nat) :
    Except Err (DB × String) :=
  match get_current_user s token with
  | .error e => .error e
  | .ok u => subscribe_user s u.id target

/-- Step 1 of `get_recommendations` (src/app/main.py lines 201-212): the
distinct genre ids reached by joining genres → video_genre → videos →
video_likes restricted to the current user's likes. -/
def liked_genre_ids (s : DB) (uid : Nat) : List Nat :=
  ((s.video_genre.filter (fun p =>
      decide ((∃ g ∈ s.genres, g.id = p.2) ∧ (∃ v ∈ s.videos, v.id = p.1) ∧
        (uid, p.1) ∈ s.video_likes))).map (fun p => p.2)).dedup

/-- The per-video aggregate of step 2 (src/app/main.py lines 216-222): the
count of the video's `video_genre` rows whose genre id is a `genres` row in
the liked set — the group size of the join, the query's `score` column. -/
def overlap_score (s : DB) (liked : List Nat) (video_id : Nat) : Nat :=
  (video_genre_ids s video_id).countP
    (fun g => decide ((∃ gr ∈ s.genres, gr.id = g) ∧ g ∈ liked))

/-- The `order_by` of src/app/main.py line 223 as a total preorder on scored
videos: score descending, ties by `created_at` descending. -/
def rec_order (a b : Video × Nat) : Prop :=
  b.2 < a.2 ∨ (a.2 = b.2 ∧ b.1.created_at ≤ a.1.created_at)

instance : DecidableRel rec_order :=
  fun a b =>
    inferInstanceAs (Decidable (b.2 < a.2 ∨ (a.2 = b.2 ∧ b.1.created_at ≤ a.1.created_at)))

instance : IsTotal (Video × Nat) rec_order :=
  ⟨by intro a b; simp only [rec_order]; omega⟩

instance : IsTrans (Video × Nat) rec_order :=
  ⟨by intro a b c; simp only [rec_order]; omega⟩

/-- The grouped rows of step 2 (src/app/main.py lines 216-222), before
ordering: every video not owned by the caller paired with its overlap score,
kept exactly when that score is positive — a video with no link into the
liked set contributes no join row and therefore no group. -/
def rec_candidates (s : DB) (uid : Nat) : List (Video × Nat) :=
  ((s.videos.filter (fun v => decide (v.owner_id ≠ uid))).map
    (fun v => (v, overlap_score s (liked_genre_ids s uid) v.id))).filter
    (fun p => decide (0 < p.2))

/-- `get_recommendations` (src/app/main.py lines 197-231).  Step 1 collects
the distinct liked genre ids; if none, the endpoint returns `[]`.  Step 2
groups the join by video (`rec_candidates`), orders by score then recency,
keeps 20 rows and serializes them. -/
def get_recommendations (s : DB) (uid : Nat) : List RecommendationOut :=
  if (liked_genre_ids s uid).isEmpty then []
  else
    (((rec_candidates s uid).insertionSort rec_order).take 20).map
      (fun p => { video := serialize_video s p.1, score := p.2 })

/-- `session_scope` (src/app/database.py lines 25-35): run the body in a
fresh session; commit its resulting state on success, roll back to the
incoming state and re-raise on an exception, close either way.  The first
component is the committed database after the request. -/
def session_scope {α : Type} (body : DB → Except Err (DB × α)) (db : DB) :
    DB × Except Err α :=
  match body db with
  | .ok (db', a) => (db', .ok a)
  | .error e => (db, .error e)

/-! ### Concrete states used by witnesses and counterexamples -/

/-- The empty database, as after `init_db`. -/
def db0 : DB :=
  { users := [], genres := [], videos := [], video_genre := [],
    video_likes := [], subscriptions := [], now := 0 }

/-- A single registered user. -/
def user_alice : User :=
  { id := 1, username := "alice", password_hash := get_password_hash "pw1234",
    created_at := 0 }

/-- A database holding only `user_alice`. -/
def db_alice : DB := { db0 with users := [user_alice] }

/-- A video owned by user 2. -/
def video_c2 : Video :=
  { id := 2, title := "v", description := none, filename := "f",
    created_at := 0, owner_id := 2 }

/-- Two users; user 1 has liked user 2's video 2, which carries genre 1. -/
def db_c2 : DB :=
  { users := [user_alice,
              { id := 2, username := "bob", password_hash := get_password_hash "pw", created_at := 0 }],
    genres := [{ id := 1, name := "Drama" }],
    videos := [video_c2],
    video_genre := [(2, 1)],
    video_likes := [(1, 2)],
    subscriptions := [],
    now := 5 }

/-- A video of user 2 carrying genres 1 and 2, liked by user 1. -/
def video10 : Video :=
  { id := 10, title := "w", description := none, filename := "g",
    created_at := 5, owner_id := 2 }

/-- A video of user 3 carrying genre 1. -/
def video11 : Video :=
  { id := 11, title := "x", description := none, filename := "h",
    created_at := 9, owner_id := 3 }

/-- Three users and four videos; user 1 liked `video10`, so user 1's liked
genres are 1 and 2.  Videos 11 and 13 tie on the ranking only by recency;
video 12 belongs to user 1. -/
def db_rec : DB :=
  { users := [user_alice,
              { id := 2, username := "bob", password_hash := get_password_hash "pw", created_at := 0 },
              { id := 3, username := "carol", password_hash := get_password_hash "pw", created_at := 0 }],
    genres := [{ id := 1, name := "Drama" }, { id := 2, name := "Comedy" }],
    videos := [video10,
               video11,
               { id := 12, title := "mine", description := none, filename := "i",
                 created_at := 7, owner_id := 1 },
               { id := 13, title := "y", description := none, filename := "j",
                 created_at := 1, owner_id := 3 }],
    video_genre := [(10, 1), (10, 2), (11, 1), (12, 1), (13, 2)],
    video_likes := [(1, 10)],
    subscriptions := [],
    now := 20 }

/-- The ranking relation of the claim on serialized recommendations: score
descending, ties by newest creation time first. -/
def rec_out_order (a b : RecommendationOut) : Prop :=
  b.score < a.score ∨ (a.score = b.score ∧ b.video.created_at ≤ a.video.created_at)

/-! ### Helper lemmas -/

theorem delete_first_of_not_mem (p : Nat × Nat) (l : List (Nat × Nat)) (h : p ∉ l) :
    delete_first p l = l := by
  induction l with
  | nil => rfl
  | cons q rest ih =>
    simp only [List.mem_cons, not_or] at h
    unfold delete_first
    rw [if_neg (fun hq => h.1 hq.symm), ih h.2]

theorem perm_cons_delete_first (p : Nat × Nat) (l : List (Nat × Nat)) (h : p ∈ l) :
    l.Perm (p :: delete_first p l) := by
  induction l with
  | nil => cases h
  | cons q rest ih =>
    unfold delete_first
    by_cases hq : q = p
    · subst hq; rw [if_pos rfl]
    · rw [if_neg hq]
      have hp : p ∈ rest := by
        rcases List.mem_cons.1 h with h1 | h2
        · exact absurd h1.symm hq
        · exact h2
      exact (List.Perm.cons q (ih hp)).trans (List.Perm.swap p q _)

theorem not_mem_delete_first (p : Nat × Nat) (l : List (Nat × Nat)) (h : l.Nodup) :
    p ∉ delete_first p l := by
  induction l with
  | nil => simp [delete_first]
  | cons q rest ih =>
    rcases List.nodup_cons.1 h with ⟨hq, hrest⟩
    unfold delete_first
    by_cases hqp : q = p
    · rw [if_pos hqp]; subst hqp; exact hq
    · rw [if_neg hqp]
      intro hmem
      rcases List.mem_cons.1 hmem with h1 | h2
      · exact hqp h1.symm
      · exact ih hrest h2

theorem delete_first_append (p : Nat × Nat) (l : List (Nat × Nat)) (h : p ∉ l) :
    delete_first p (l ++ [p]) = l := by
  induction l with
  | nil => simp [delete_first]
  | cons q rest ih =>
    simp only [List.mem_cons, not_or] at h
    rw [List.cons_append]
    unfold delete_first
    rw [if_neg (fun hq => h.1 hq.symm), ih h.2]

/-! ### Claim theorems -/

/-- Claim C6: a first registration of a username succeeds and appends the
new user; a later registration of the same username fails with bad-request
and, the transaction being rolled back, leaves the users unchanged. -/
theorem register_unique_username (s : DB) (username password : String) :
    ((∀ u ∈ s.users, u.username ≠ username) →
      ∃ nu : User, nu.username = username ∧
        register s username password = .ok ({ s with users := s.users ++ [nu] }, nu)) ∧
    ((∃ u ∈ s.users, u.username = username) →
      register s username password = .error .badRequest ∧
      (session_scope (fun db => register db username password) s).1 = s) := by
  constructor
  · intro h
    have hb : s.users.any (fun u => decide (u.username = username)) = false := by
      simp only [List.any_eq_false, decide_eq_true_eq]
      exact h
    exact ⟨{ id := freshId (s.users.map (fun u => u.id)), username := username,
             password_hash := get_password_hash password, created_at := s.now },
           rfl, by simp [register, hb]⟩
  · rintro ⟨u, hu, huname⟩
    have hb : s.users.any (fun u => decide (u.username = username)) = true := by
      simp only [List.any_eq_true, decide_eq_true_eq]
      exact ⟨u, hu, huname⟩
    exact ⟨by simp [register, hb], by simp [session_scope, register, hb]⟩

/-- Witness for C6 at concrete inputs: registering "alice" on the empty
database succeeds, registering "alice" again on the resulting database fails
with bad-request and commits nothing. -/
theorem register_unique_username_witness :
    (∃ nu : User, nu.username = "alice" ∧
      register db0 "alice" "pw1234" = .ok ({ db0 with users := db0.users ++ [nu] }, nu)) ∧
    (register db_alice "alice" "pw5678" = .error .badRequest ∧
      (session_scope (fun db => register db "alice" "pw5678") db_alice).1 = db_alice) :=
  ⟨(register_unique_username db0 "alice" "pw1234").1 (by decide),
   (register_unique_username db_alice "alice" "pw5678").2 (by decide)⟩

/-- Claim C7: `session_scope` commits the body's resulting state on success
and keeps the incoming state on an exception, re-raising it — so a failing
request's partial writes never persist. -/
theorem session_scope_transaction {α : Type} (body : DB → Except Err (DB × α)) (db : DB) :
    (∀ e, body db = .error e → session_scope body db = (db, .error e)) ∧
    (∀ db' a, body db = .ok (db', a) → session_scope body db = (db', .ok a)) := by
  constructor
  · intro e he; simp [session_scope, he]
  · intro db' a hb; simp [session_scope, hb]

/-- Witness for C7: the upload of C3's failing input raises an integrity
error after having already flushed a Genre row, and the wrapped request
leaves the committed database exactly as it was; a successful registration
commits its new state. -/
theorem session_scope_transaction_witness :
    session_scope (fun db => upload_video db 1 "t" none "Comedy, comedy, COMEDY" "c.mp4") db_alice
      = (db_alice, .error .integrityError) ∧
    session_scope (fun db => register db "alice" "pw1234") db0
      = ({ db0 with users := [user_alice] }, .ok user_alice) :=
  ⟨(session_scope_transaction
      (fun db => upload_video db 1 "t" none "Comedy, comedy, COMEDY" "c.mp4") db_alice).1
      .integrityError (by decide),
   (session_scope_transaction (fun db => register db "alice" "pw1234") db0).2
      { db0 with users := [user_alice] } user_alice (by decide)⟩

/-- Claim C4: the like operation toggles the `(user, video)` like row —
delete plus "Like removed" when present, insert plus "Video liked" when
absent —, fails with not-found when the video does not exist, and applying
it twice returns the like rows to the original set (their list up to
permutation, under the table's uniqueness constraint) while touching no
other table. -/
theorem like_video_toggle (s : DB) (uid vid : Nat) :
    ((∀ v ∈ s.videos, v.id ≠ vid) → like_video s uid vid = .error .notFound) ∧
    ((∃ v ∈ s.videos, v.id = vid) →
      ((uid, vid) ∈ s.video_likes →
        like_video s uid vid =
          .ok ({ s with video_likes := delete_first (uid, vid) s.video_likes }, "Like removed")) ∧
      ((uid, vid) ∉ s.video_likes →
        like_video s uid vid =
          .ok ({ s with video_likes := s.video_likes ++ [(uid, vid)] }, "Video liked")) ∧
      (s.video_likes.Nodup →
        ∃ s1 m1 s2 m2, like_video s uid vid = .ok (s1, m1) ∧
          like_video s1 uid vid = .ok (s2, m2) ∧
          s2.video_likes.Perm s.video_likes ∧ s2.videos = s.videos ∧
          s2.users = s.users ∧ s2.genres = s.genres ∧
          s2.video_genre = s.video_genre ∧ s2.subscriptions = s.subscriptions)) := by
  constructor
  · intro h
    have hn : s.videos.find? (fun v => decide (v.id = vid)) = none := by
      rw [List.find?_eq_none]
      intro v hv
      simpa using h v hv
    unfold like_video
    rw [hn]
  · rintro ⟨v, hv, hid⟩
    have hsome : (s.videos.find? (fun v => decide (v.id = vid))).isSome := by
      rw [List.find?_isSome]
      exact ⟨v, hv, by simpa using hid⟩
    obtain ⟨v', hv'⟩ := Option.isSome_iff_exists.1 hsome
    have hid' : v'.id = vid := by simpa using List.find?_some hv'
    refine ⟨?_, ?_, ?_⟩
    · intro hmem
      unfold like_video
      simp only [hv', hid']
      rw [if_pos hmem]
    · intro hmem
      unfold like_video
      simp only [hv', hid']
      rw [if_neg hmem]
    · intro hnd
      by_cases hmem : (uid, vid) ∈ s.video_likes
      · have hnot : (uid, vid) ∉ delete_first (uid, vid) s.video_likes :=
          not_mem_delete_first _ _ hnd
        refine ⟨{ s with video_likes := delete_first (uid, vid) s.video_likes },
                "Like removed",
                { s with video_likes := delete_first (uid, vid) s.video_likes ++ [(uid, vid)] },
                "Video liked", ?_, ?_, ?_, rfl, rfl, rfl, rfl, rfl⟩
        · unfold like_video
          simp only [hv', hid']
          rw [if_pos hmem]
        · unfold like_video
          simp only [hv', hid']
          rw [if_neg hnot]
        · exact (List.perm_append_singleton _ _).trans (perm_cons_delete_first _ _ hmem).symm
      · refine ⟨{ s with video_likes := s.video_likes ++ [(uid, vid)] },
                "Video liked",
                { s with video_likes := delete_first (uid, vid) (s.video_likes ++ [(uid, vid)]) },
                "Like removed", ?_, ?_, ?_, rfl, rfl, rfl, rfl, rfl⟩
        · unfold like_video
          simp only [hv', hid']
          rw [if_neg hmem]
        · have hmem2 : (uid, vid) ∈ s.video_likes ++ [(uid, vid)] :=
            List.mem_append_right _ (List.mem_singleton.2 rfl)
          unfold like_video
          simp only [hv', hid']
          rw [if_pos hmem2]
        · rw [delete_first_append _ _ hmem]

/-- Witness for C4 at concrete inputs: on `db_c2` (video 2 exists and is
liked by user 1) liking video 99 is not-found, liking video 2 removes the
like, and toggling twice restores the like set. -/
theorem like_video_toggle_witness :
    like_video db_c2 1 99 = .error .notFound ∧
    (like_video db_c2 1 2 =
      .ok ({ db_c2 with video_likes := delete_first (1, 2) db_c2.video_likes }, "Like removed")) ∧
    (∃ s1 m1 s2 m2, like_video db_c2 1 2 = .ok (s1, m1) ∧
      like_video s1 1 2 = .ok (s2, m2) ∧
      s2.video_likes.Perm db_c2.video_likes ∧ s2.videos = db_c2.videos ∧
      s2.users = db_c2.users ∧ s2.genres = db_c2.genres ∧
      s2.video_genre = db_c2.video_genre ∧ s2.subscriptions = db_c2.subscriptions) :=
  ⟨(like_video_toggle db_c2 1 99).1 (by decide),
   ((like_video_toggle db_c2 1 2).2 (by decide)).1 (by decide),
   ((like_video_toggle db_c2 1 2).2 (by decide)).2.2 (by decide)⟩

/-- Counterexample to C5 as stated: with an invalid token, a request whose
target is the only user's own id (user 1 of `db_alice`) fails with the
authentication error, not with bad-request — the `get_current_user`
dependency runs before the handler's self-check. -/
theorem subscribe_self_invalid_auth_counterexample :
    subscribe_request db_alice "garbage" 1 = .error .unauthorized ∧
    Err.unauthorized ≠ Err.badRequest :=
  ⟨by decide, by decide⟩

/-- Claim C5 as amended: for an authenticated caller, a self-targeted
subscribe fails with bad-request and commits no Subscription change; an
authentication failure is returned as such (unauthorized) without reaching
the handler; for an authenticated caller and any other existing target the
Subscription row for the (subscriber, channel) pair is toggled. -/
theorem subscribe_toggle_authenticated (s : DB) (token : String) (target : Nat) :
    (∀ u, get_current_user s token = .ok u → u.id = target →
      subscribe_request s token target = .error .badRequest ∧
      (session_scope (fun db => subscribe_user db u.id target) s).1 = s) ∧
    (∀ e, get_current_user s token = .error e →
      subscribe_request s token target = .error e) ∧
    (∀ u, get_current_user s token = .ok u → u.id ≠ target →
      (∃ ch ∈ s.users, ch.id = target) →
      ((u.id, target) ∈ s.subscriptions →
        subscribe_request s token target =
          .ok ({ s with subscriptions := delete_first (u.id, target) s.subscriptions },
               "Unsubscribed")) ∧
      ((u.id, target) ∉ s.subscriptions →
        subscribe_request s token target =
          .ok ({ s with subscriptions := s.subscriptions ++ [(u.id, target)] },
               "Subscribed"))) := by
  refine ⟨?_, ?_, ?_⟩
  · intro u hu hid
    constructor
    · unfold subscribe_request
      simp only [hu]
      unfold subscribe_user
      rw [if_pos hid]
    · simp [session_scope, subscribe_user, hid]
  · intro e he
    unfold subscribe_request
    simp only [he]
  · rintro u hu hne ⟨ch, hch, hchid⟩
    have hsome : (s.users.find? (fun x => decide (x.id = target))).isSome := by
      rw [List.find?_isSome]
      exact ⟨ch, hch, by simpa using hchid⟩
    obtain ⟨ch', hch'⟩ := Option.isSome_iff_exists.1 hsome
    have hchid' : ch'.id = target := by simpa using List.find?_some hch'
    constructor
    · intro hmem
      unfold subscribe_request
      simp only [hu]
      unfold subscribe_user
      rw [if_neg hne]
      simp only [hch', hchid']
      rw [if_pos hmem]
    · intro hmem
      unfold subscribe_request
      simp only [hu]
      unfold subscribe_user
      rw [if_neg hne]
      simp only [hch', hchid']
      rw [if_neg hmem]

/-- Witness for C5's amended statement at concrete inputs on `db_c2`: an
authenticated self-subscribe fails with bad-request and commits nothing, an
invalid token fails with unauthorized, and an authenticated subscribe to the
other user inserts the subscription row. -/
theorem subscribe_toggle_authenticated_witness :
    (subscribe_request db_c2 (create_access_token "alice") 1 = .error .badRequest ∧
      (session_scope (fun db => subscribe_user db 1 1) db_c2).1 = db_c2) ∧
    subscribe_request db_c2 "garbage" 1 = .error .unauthorized ∧
    subscribe_request db_c2 (create_access_token "alice") 2 =
      .ok ({ db_c2 with subscriptions := db_c2.subscriptions ++ [(1, 2)] }, "Subscribed") :=
  ⟨(subscribe_toggle_authenticated db_c2 (create_access_token "alice") 1).1
      user_alice (by decide) (by decide),
   (subscribe_toggle_authenticated db_c2 "garbage" 1).2.1 .unauthorized (by decide),
   ((subscribe_toggle_authenticated db_c2 (create_access_token "alice") 2).2.2
      user_alice (by decide) (by decide) (by decide)).2 (by decide)⟩

/-- Every returned recommendation is the serialization of a stored video not
owned by the caller, scored by its overlap with the liked genre set, and only
positive scores appear (the join admits a video only through a matching
genre link). -/
theorem mem_get_recommendations {s : DB} {uid : Nat} {r : RecommendationOut}
    (h : r ∈ get_recommendations s uid) :
    ∃ v ∈ s.videos, v.owner_id ≠ uid ∧ r.video = serialize_video s v ∧
      r.score = overlap_score s (liked_genre_ids s uid) v.id ∧ 0 < r.score := by
  unfold get_recommendations at h
  by_cases hi : (liked_genre_ids s uid).isEmpty
  · rw [if_pos hi] at h
    exact absurd h (List.not_mem_nil r)
  · rw [if_neg hi] at h
    obtain ⟨p, hp, rfl⟩ := List.mem_map.1 h
    have hp1 : p ∈ (rec_candidates s uid).insertionSort rec_order :=
      List.mem_of_mem_take hp
    have hp2 : p ∈ rec_candidates s uid :=
      (List.perm_insertionSort rec_order _).subset hp1
    unfold rec_candidates at hp2
    obtain ⟨hp3, hpos⟩ := List.mem_filter.1 hp2
    obtain ⟨v, hv4, hveq⟩ := List.mem_map.1 hp3
    obtain ⟨hv5, hown⟩ := List.mem_filter.1 hv4
    refine ⟨v, hv5, by simpa using hown, ?_, ?_, ?_⟩
    · rw [← hveq]
    · rw [← hveq]
    · simpa using hpos

/-- The endpoint returns at most the query's `limit(20)` rows. -/
theorem length_get_recommendations (s : DB) (uid : Nat) :
    (get_recommendations s uid).length ≤ 20 := by
  unfold get_recommendations
  by_cases hi : (liked_genre_ids s uid).isEmpty
  · rw [if_pos hi]; simp
  · rw [if_neg hi]
    rw [List.length_map, List.length_take]
    exact Nat.min_le_left _ _

/-- The returned list is ordered by score descending, ties newest first. -/
theorem pairwise_get_recommendations (s : DB) (uid : Nat) :
    (get_recommendations s uid).Pairwise rec_out_order := by
  unfold get_recommendations
  by_cases hi : (liked_genre_ids s uid).isEmpty
  · rw [if_pos hi]; exact List.Pairwise.nil
  · rw [if_neg hi]
    rw [List.pairwise_map]
    have hs : ((rec_candidates s uid).insertionSort rec_order).Pairwise rec_order :=
      List.sorted_insertionSort rec_order _
    exact (List.Pairwise.sublist (List.take_sublist _ _) hs).imp (fun hab => hab)

/-- Claim C1: with no liked genres the recommendations are empty; otherwise
the endpoint returns at most 20 rows, each the serialization of a stored
video not owned by the caller paired with its overlap count against the
liked genre set, ordered by that count descending with ties broken by newest
creation time. -/
theorem get_recommendations_spec (s : DB) (uid : Nat) :
    (liked_genre_ids s uid = [] → get_recommendations s uid = []) ∧
    (get_recommendations s uid).length ≤ 20 ∧
    (∀ r ∈ get_recommendations s uid, ∃ v ∈ s.videos, v.owner_id ≠ uid ∧
      r.video = serialize_video s v ∧
      r.score = overlap_score s (liked_genre_ids s uid) v.id) ∧
    (get_recommendations s uid).Pairwise rec_out_order := by
  refine ⟨?_, length_get_recommendations s uid, ?_, pairwise_get_recommendations s uid⟩
  · intro h
    unfold get_recommendations
    rw [h]
    rfl
  · intro r hr
    obtain ⟨v, hv, hown, hser, hscore, _⟩ := mem_get_recommendations hr
    exact ⟨v, hv, hown, hser, hscore⟩

/-- Witness for C1 at concrete inputs: on `db_alice` user 1 has liked
nothing and gets no recommendations; on `db_rec` the leading recommendation
(video 10, overlap 2) is a stored video of another owner with the claimed
score. -/
theorem get_recommendations_spec_witness :
    get_recommendations db_alice 1 = [] ∧
    (∃ v ∈ db_rec.videos, v.owner_id ≠ 1 ∧
      (⟨serialize_video db_rec video10, 2⟩ : RecommendationOut).video = serialize_video db_rec v ∧
      (⟨serialize_video db_rec video10, 2⟩ : RecommendationOut).score =
        overlap_score db_rec (liked_genre_ids db_rec 1) v.id) :=
  ⟨(get_recommendations_spec db_alice 1).1 (by decide),
   (get_recommendations_spec db_rec 1).2.2.1 ⟨serialize_video db_rec video10, 2⟩ (by decide)⟩

/-- Claim C9: every returned recommendation's score is at least 1 — a video
sharing no genre with the liked set never appears. -/
theorem recommendation_score_positive (s : DB) (uid : Nat) :
    ∀ r ∈ get_recommendations s uid, 1 ≤ r.score := by
  intro r hr
  obtain ⟨_, _, _, _, _, hpos⟩ := mem_get_recommendations hr
  exact hpos

/-- Witness for C9 at a concrete input: the recommendation of video 11 on
`db_rec` carries score 1. -/
theorem recommendation_score_positive_witness :
    1 ≤ (⟨serialize_video db_rec video11, 1⟩ : RecommendationOut).score :=
  recommendation_score_positive db_rec 1 ⟨serialize_video db_rec video11, 1⟩ (by decide)

/-- Counterexample to C2 as stated: on `db_c2` user 1 has liked video 2, yet
the recommendation list for user 1 is exactly that video — the query never
filters out videos the caller already liked. -/
theorem liked_video_recommended_counterexample :
    (1, video_c2.id) ∈ db_c2.video_likes ∧
    (get_recommendations db_c2 1).map (fun r => r.video.id) = [video_c2.id] :=
  ⟨by decide, by decide⟩

/-- Claim C2 as amended: the recommendation query does not exclude videos
the caller has already liked; its only caller-relative exclusion is
ownership — no returned video has the caller as owner. -/
theorem recommendations_exclude_only_own_videos (s : DB) (uid : Nat) :
    ∀ r ∈ get_recommendations s uid, r.video.owner_id ≠ uid := by
  intro r hr
  obtain ⟨v, _, hown, hser, _, _⟩ := mem_get_recommendations hr
  rw [hser]
  exact hown

/-- Witness for C2's amended statement at a concrete input: the leading
recommendation on `db_rec` is not owned by the caller. -/
theorem recommendations_exclude_only_own_videos_witness :
    (⟨serialize_video db_rec video10, 2⟩ : RecommendationOut).video.owner_id ≠ 1 :=
  recommendations_exclude_only_own_videos db_rec 1
    ⟨serialize_video db_rec video10, 2⟩ (by decide)

/-- Claim C8: the `likes` field of every serialized video — from the list,
single-video and recommendation endpoints alike — equals the number of
`VideoLike` rows referencing that video in the state serving the response;
the `Video` row itself stores no count. -/
theorem like_count_computed (s : DB) (uid skip limit vid : Nat) :
    (∀ vo ∈ list_videos s skip limit,
      vo.likes = s.video_likes.countP (fun l => decide (l.2 = vo.id))) ∧
    (∀ vo, get_video s vid = .ok vo →
      vo.likes = s.video_likes.countP (fun l => decide (l.2 = vo.id))) ∧
    (∀ r ∈ get_recommendations s uid,
      r.video.likes = s.video_likes.countP (fun l => decide (l.2 = r.video.id))) := by
  refine ⟨?_, ?_, ?_⟩
  · intro vo hvo
    unfold list_videos at hvo
    obtain ⟨v, hv, rfl⟩ := List.mem_map.1 hvo
    rfl
  · intro vo hvo
    unfold get_video at hvo
    split at hvo
    · simp at hvo
    · injection hvo with h
      subst h
      rfl
  · intro r hr
    obtain ⟨v, _, _, hser, _, _⟩ := mem_get_recommendations hr
    rw [hser]
    rfl

/-- Witness for C8 at concrete inputs: on `db_c2`, the listed video 2 and
the recommended video 2 both report like count 1, the row count for them. -/
theorem like_count_computed_witness :
    (serialize_video db_c2 video_c2).likes =
      db_c2.video_likes.countP (fun l => decide (l.2 = (serialize_video db_c2 video_c2).id)) ∧
    ((⟨serialize_video db_c2 video_c2, 1⟩ : RecommendationOut).video.likes =
      db_c2.video_likes.countP
        (fun l => decide (l.2 = (⟨serialize_video db_c2 video_c2, 1⟩ : RecommendationOut).video.id))) :=
  ⟨(like_count_computed db_c2 1 0 20 2).1 (serialize_video db_c2 video_c2) (by decide),
   (like_count_computed db_c2 1 0 20 2).2.2 ⟨serialize_video db_c2 video_c2, 1⟩ (by decide)⟩

/-- Claim C10: an upload whose genres field parses to no names (empty, or
only commas and whitespace) succeeds, adds exactly the one new video, and
changes neither the `genres` table nor the `video_genre` association table
(both are carried over unchanged in the committed state). -/
theorem upload_empty_genres (s : DB) (uid : Nat) (title : String) (d : Option String)
    (g fn : String) :
    parse_genre_names g = [] → s.video_genre.Nodup →
    ∃ v : Video, v.owner_id = uid ∧ v.title = title ∧
      upload_video s uid title d g fn =
        .ok ({ s with videos := s.videos ++ [v] },
          serialize_video { s with videos := s.videos ++ [v] } v) := by
  intro hg hnd
  refine ⟨{ id := freshId (s.videos.map (fun v => v.id)), title := title, description := d,
            filename := toString (freshId (s.videos.map (fun v => v.id))) ++ "_" ++ fn,
            created_at := s.now, owner_id := uid }, rfl, rfl, ?_⟩
  unfold upload_video
  rw [hg]
  simp only [process_genres, List.map_nil, List.append_nil]
  rw [if_pos hnd]

/-- Witness for C10 at a concrete input: a genres field of commas and
whitespace only. -/
theorem upload_empty_genres_witness :
    ∃ v : Video, v.owner_id = 1 ∧ v.title = "t" ∧
      upload_video db_alice 1 "t" none " , ,, " "clip.mp4" =
        .ok ({ db_alice with videos := db_alice.videos ++ [v] },
          serialize_video { db_alice with videos := db_alice.videos ++ [v] } v) :=
  upload_empty_genres db_alice 1 "t" none " , ,, " "clip.mp4" (by decide) (by decide)

/-- Claim C3, evaluated at the spec's own example: the genre loop parses
"Comedy, comedy, COMEDY" into three names, creates exactly one Genre row
named "Comedy" (first-seen casing) and appends the same link id three times;
the commit then violates the association table's composite primary key, so
the upload fails with an integrity error and the rolled-back transaction
persists neither the genre nor the video — not the claimed successful single
link. -/
theorem upload_duplicate_genre_casing_bug :
    parse_genre_names "Comedy, comedy, COMEDY" = ["Comedy", "comedy", "COMEDY"] ∧
    process_genres db_alice.genres ["Comedy", "comedy", "COMEDY"] =
      ([{ id := 1, name := "Comedy" }], [1, 1, 1]) ∧
    upload_video db_alice 1 "title" none "Comedy, comedy, COMEDY" "clip.mp4" =
      .error .integrityError ∧
    (session_scope
        (fun db => upload_video db 1 "title" none "Comedy, comedy, COMEDY" "clip.mp4")
        db_alice).1 = db_alice :=
  ⟨by decide, by decide, by decide, by decide⟩

end ClipStream
